import Mathlib

/-!
# Realtime collaboration hook — verification development

Shallow embedding of `src/hooks/use-realtime-collaboration.ts` (the realtime
collaboration session core: presence registry, action broadcaster, session
lifecycle controller) and proofs of its specified properties.

Two layers are modelled:

* a **typed layer**, following the TypeScript interfaces
  (`CollaborativeUser`, `MindMapAction`): pure functions for the registry
  update performed by each broadcast handler, for `broadcastAction`,
  `updateCursorPosition`, `updateSelectedNode`, the color assignment done in
  the subscribe callback, the room-name computation, the effect-cleanup
  (teardown) sequence;

* a **raw layer** capturing the dynamic JavaScript semantics of the receive
  handlers, where the wire payload is an untyped object whose fields may be
  absent (`Option`-valued fields) or the payload itself absent/null
  (`Option RawPayload`), and where property access on `undefined`/`null` or
  `new Date(undefined).toISOString()` throws (`Except JsError`).

Numbers on the wire (`Date.now()` timestamps, coordinates) are modelled as
`Int`; the claims never compute with them.
-/

namespace Zermind.RealtimeCollab

/-- `position?: { x: number; y: number }` of `MindMapAction`. -/
structure Position where
  x : Int
  y : Int
deriving DecidableEq, Repr

/-- The `type` field of `MindMapAction` (string union in the source). -/
inductive ActionType where
  | node_move
  | node_select
  | node_create
  | node_delete
  | cursor_move
  | user_join
  | user_leave
deriving DecidableEq, Repr

/-- `CollaborativeUser` from the source (typed layer).  The optional
`email`/`cursor` fields are carried but never set by the join handler. -/
structure CollaborativeUser where
  id : String
  name : String
  email : Option String := none
  cursor : Option Position := none
  color : String
  online_at : String
deriving DecidableEq, Repr

/-- `MindMapAction` from the source (typed layer).  The freeform
`data?: Record<string, unknown>` field is modelled as an association list of
string keys to opaque string values; no claim inspects it. -/
structure MindMapAction where
  type : ActionType
  nodeId : Option String := none
  position : Option Position := none
  userId : String
  userName : String
  userColor : String
  timestamp : Int
  data : Option (List (String × String)) := none
deriving DecidableEq, Repr

/-- `Omit<MindMapAction, "userId" | "userName" | "userColor" | "timestamp">`:
the argument type of `broadcastAction`. -/
structure PartialAction where
  type : ActionType
  nodeId : Option String := none
  position : Option Position := none
  data : Option (List (String × String)) := none
deriving DecidableEq, Repr

/-- `UseRealtimeCollaborationProps` (the callback props are not data). -/
structure UseRealtimeCollaborationProps where
  chatId : String
  userId : String
  userName : String
  userEmail : Option String := none
deriving DecidableEq, Repr

/-- `USER_COLORS`, the fixed 8-color palette. -/
def USER_COLORS : List String :=
  ["#3B82F6", "#EF4444", "#10B981", "#F59E0B", "#8B5CF6", "#EC4899", "#06B6D4", "#84CC16"]

/-- `new Date(t).toISOString()` for a numeric millisecond timestamp `t`:
an external library call, modelled as an (injective) rendering of the
timestamp; the claims only need that `online_at` is determined by the
event's timestamp. -/
def dateToISOString (t : Int) : String :=
  toString t

/-- The `CollaborativeUser` the `user_join` handler builds from a received
action (source lines 226–231). -/
def newUserOfAction (a : MindMapAction) : CollaborativeUser :=
  { id := a.userId
    name := a.userName
    color := a.userColor
    online_at := dateToISOString a.timestamp }

/-- Registry update of the `user_join` handler (source lines 233–238):
`current.filter(u => u.id !== action.userId)` then append the new entry. -/
def upsertOnJoin (current : List CollaborativeUser) (a : MindMapAction) :
    List CollaborativeUser :=
  current.filter (fun u => u.id ≠ a.userId) ++ [newUserOfAction a]

/-- Registry update of the `user_leave` handler (source line 252):
`current.filter(u => u.id !== action.userId)`. -/
def removeOnLeave (current : List CollaborativeUser) (uid : String) :
    List CollaborativeUser :=
  current.filter (fun u => u.id ≠ uid)

/-- Number of registry entries whose `id` is `uid`. -/
def countId (uid : String) (s : List CollaborativeUser) : Nat :=
  s.countP (fun u => u.id = uid)

/-- The registry invariant: at most one entry per userId. -/
def AtMostOnePerId (s : List CollaborativeUser) : Prop :=
  ∀ uid : String, countId uid s ≤ 1

/-! ## Typed receive handlers

Each broadcast handler first compares the envelope's `userId` with the local
`userId` and returns without effect on equality.  The result records the
registry after the event and the observable effect: for `mind_map_action`,
the action handed to `onAction` (`none` = not invoked); for
`user_join`/`user_leave`, the participant list handed to `onPresenceChange`
(`none` = not invoked). -/

/-- `mind_map_action` handler (source lines 207–214), typed layer. -/
def handleMindMapActionEvent (localUserId : String) (a : MindMapAction) :
    Option MindMapAction :=
  if a.userId = localUserId then none else some a

/-- `user_join` handler (source lines 217–240), typed layer. -/
def handleUserJoinEvent (localUserId : String) (current : List CollaborativeUser)
    (a : MindMapAction) : List CollaborativeUser × Option (List CollaborativeUser) :=
  if a.userId = localUserId then (current, none)
  else
    let updated := upsertOnJoin current a
    (updated, some updated)

/-- `user_leave` handler (source lines 243–257), typed layer. -/
def handleUserLeaveEvent (localUserId : String) (current : List CollaborativeUser)
    (a : MindMapAction) : List CollaborativeUser × Option (List CollaborativeUser) :=
  if a.userId = localUserId then (current, none)
  else
    let updated := removeOnLeave current a.userId
    (updated, some updated)

/-! ## Raw (dynamic JavaScript) layer

The source casts the wire payload with `payload as MindMapAction` and never
validates it.  Here the payload is an untyped record whose fields may each be
absent, or may itself be absent (`none` stands for `undefined`/`null`).
JavaScript semantics modelled: property access on `undefined` throws a
`TypeError`; strict equality between `undefined` and a string is `false`
(`Option.some` injectivity and `none ≠ some _` model `===`);
`new Date(undefined).toISOString()` throws a `RangeError`. -/

/-- A JavaScript exception escaping a handler. -/
inductive JsError where
  | typeError
  | rangeError
deriving DecidableEq, Repr

/-- A wire payload as the handlers actually see it: every field possibly
absent. -/
structure RawPayload where
  type : Option String := none
  nodeId : Option String := none
  userId : Option String := none
  userName : Option String := none
  userColor : Option String := none
  timestamp : Option Int := none
deriving DecidableEq, Repr

/-- A registry entry as the raw `user_join` handler builds it: fields copied
from the wire payload, hence possibly absent. -/
structure RawUser where
  id : Option String
  name : Option String
  color : Option String
  online_at : Option String
deriving DecidableEq, Repr

/-- `new Date(t).toISOString()` on a possibly-absent timestamp:
`new Date(undefined)` is an Invalid Date, whose `toISOString()` throws a
`RangeError`. -/
def dateToISOStringRaw : Option Int → Except JsError String
  | none => .error .rangeError
  | some t => .ok (dateToISOString t)

/-- `mind_map_action` handler (source lines 207–214), raw layer.  Returns the
action handed to `onAction`, if any. -/
def handleMindMapActionEventRaw (localUserId : String) (payload : Option RawPayload) :
    Except JsError (Option RawPayload) :=
  match payload with
  | none => .error .typeError
  | some a => if a.userId = some localUserId then .ok none else .ok (some a)

/-- `user_join` handler (source lines 217–240), raw layer.  Returns the
updated registry and the list handed to `onPresenceChange`, if any. -/
def handleUserJoinEventRaw (localUserId : String) (current : List RawUser)
    (payload : Option RawPayload) :
    Except JsError (List RawUser × Option (List RawUser)) :=
  match payload with
  | none => .error .typeError
  | some a =>
    if a.userId = some localUserId then .ok (current, none)
    else
      match dateToISOStringRaw a.timestamp with
      | .error e => .error e
      | .ok iso =>
        let newUser : RawUser :=
          { id := a.userId, name := a.userName, color := a.userColor, online_at := some iso }
        let updated := current.filter (fun u => u.id ≠ a.userId) ++ [newUser]
        .ok (updated, some updated)

/-- `user_leave` handler (source lines 243–257), raw layer. -/
def handleUserLeaveEventRaw (localUserId : String) (current : List RawUser)
    (payload : Option RawPayload) :
    Except JsError (List RawUser × Option (List RawUser)) :=
  match payload with
  | none => .error .typeError
  | some a =>
    if a.userId = some localUserId then .ok (current, none)
    else
      let updated := current.filter (fun u => u.id ≠ a.userId)
      .ok (updated, some updated)

/-! ## Action broadcaster -/

/-- `broadcastAction` (source lines 145–173).  `hasChannel` models
`channel !== null`, `connected` models `isConnectedRef.current`; `now` models
`Date.now()`.  Returns the envelope handed to `channel.send`, or `none` when
the call returns without sending. -/
def broadcastAction (hasChannel connected : Bool)
    (userId userName userColor : String) (now : Int) (action : PartialAction) :
    Option MindMapAction :=
  if !hasChannel || !connected then none
  else
    some { type := action.type, nodeId := action.nodeId, position := action.position,
           userId := userId, userName := userName, userColor := userColor,
           timestamp := now, data := action.data }

/-- `updateCursorPosition` (source lines 176–184): the partial action it
passes to `broadcastAction`. -/
def updateCursorPosition (x y : Int) : PartialAction :=
  { type := .cursor_move, position := some ⟨x, y⟩ }

/-- JavaScript truthiness of a `string | null` value: `null`, `undefined`
and `""` are falsy. -/
def jsTruthyString : Option String → Bool
  | none => false
  | some s => s ≠ ""

/-- `updateSelectedNode` (source lines 187–197): the partial action it passes
to `broadcastAction`, or `none` when it does not call it (the `if (nodeId)`
guard fails). -/
def updateSelectedNode (nodeId : Option String) : Option PartialAction :=
  if jsTruthyString nodeId then some { type := .node_select, nodeId := nodeId }
  else none

/-! ## Color assignment (subscribe callback, source lines 265–279) -/

/-- JavaScript `x || y` on a possibly-absent string `x` (`availableColors[0]`
is `undefined` when the array is empty; `""` is falsy). -/
def jsOrString (x : Option String) (y : String) : String :=
  match x with
  | some s => if s = "" then y else s
  | none => y

/-- The color assigned on `SUBSCRIBED` (source lines 266–272):
`availableColors[0] || USER_COLORS[Math.floor(Math.random() * USER_COLORS.length)]`.
Randomness is modelled by an arbitrary seed `rand`, indexing as
`rand % USER_COLORS.length` — exactly the range `Math.floor(Math.random() * n)`
produces. -/
def assignColor (currentUsers : List CollaborativeUser) (rand : Nat) : String :=
  let availableColors :=
    USER_COLORS.filter (fun color => !currentUsers.any (fun user => user.color == color))
  jsOrString availableColors.head? (USER_COLORS.getD (rand % USER_COLORS.length) "")

/-! ## Channel topic -/

/-- `roomName` (source line 203): `` `chat-collaboration:${chatId}` ``. -/
def roomName (chatId : String) : String :=
  "chat-collaboration:" ++ chatId

/-- The topic the setup effect subscribes to, as a function of the hook
props: it reads only `chatId`. -/
def sessionTopic (p : UseRealtimeCollaborationProps) : String :=
  roomName p.chatId

/-! ## Session teardown (effect cleanup, source lines 298–355) -/

/-- The hook's local state relevant to teardown.  `hasChannel` models
`channel !== null`; the initial `userColor` state is `"#3B82F6"`. -/
structure CollabState where
  hasChannel : Bool
  isConnected : Bool
  collaborativeUsers : List CollaborativeUser
  userColor : String
  shouldAnnounceJoin : Bool
deriving DecidableEq, Repr

/-- `useState<string>("#3B82F6")` initial value of `userColor`. -/
def initialUserColor : String := "#3B82F6"

/-- The state after the cleanup function runs (source lines 350–354):
`setChannel(null); setIsConnected(false); setCollaborativeUsers([]);
setShouldAnnounceJoin(false)`.  No other field is written. -/
def cleanupState (s : CollabState) : CollabState :=
  { s with hasChannel := false, isConnected := false,
           collaborativeUsers := [], shouldAnnounceJoin := false }

/-- The `user_leave` envelope the cleanup constructs (source lines 307–313). -/
def leaveAction (userId userName userColor : String) (now : Int) : MindMapAction :=
  { type := .user_leave, userId := userId, userName := userName,
    userColor := userColor, timestamp := now }

/-- One observable step of the cleanup function. -/
inductive CleanupStep where
  | cancelAnnounceTimer
  | beaconSend (chatId : String) (a : MindMapAction)
  | channelSendLeave (a : MindMapAction)
  | removeChannel
  | resetLocalState
deriving DecidableEq, Repr

/-- Whether a step is the out-of-band (`navigator.sendBeacon`) leave
attempt. -/
def CleanupStep.isBeaconSend : CleanupStep → Bool
  | .beaconSend _ _ => true
  | _ => false

/-- Whether a step is the fallback `channel.send` leave broadcast. -/
def CleanupStep.isChannelSendLeave : CleanupStep → Bool
  | .channelSendLeave _ => true
  | _ => false

/-- Whether a step attempts delivery of the `user_leave` envelope at all. -/
def CleanupStep.isLeaveAttempt (s : CleanupStep) : Bool :=
  s.isBeaconSend || s.isChannelSendLeave

/-- The sequence of observable steps the cleanup function performs (source
lines 298–355), as a function of the branch conditions it reads:
`pendingTimer` = `announceTimeoutRef.current !== null`; `connected` =
`isConnectedRef.current` (with `newChannel` non-null, as the effect always
sets it); `beaconAvailable` = `typeof navigator !== "undefined" &&
navigator.sendBeacon`; `beaconThrows` = the `try` block
(`JSON.stringify` + `navigator.sendBeacon`) throws synchronously, taken by
the `catch` to the fallback `channel.send`. -/
def cleanupSteps (pendingTimer connected beaconAvailable beaconThrows : Bool)
    (chatId userId userName userColor : String) (now : Int) : List CleanupStep :=
  (if pendingTimer then [.cancelAnnounceTimer] else []) ++
  (if connected then
    let la := leaveAction userId userName userColor now
    if beaconAvailable then
      if beaconThrows then [.beaconSend chatId la, .channelSendLeave la]
      else [.beaconSend chatId la]
    else [.channelSendLeave la]
   else []) ++
  [.removeChannel, .resetLocalState]

/-- Whether a join-announcement timer is still pending after executing the
given steps, starting from `pending`: only `cancelAnnounceTimer` clears it
(`clearTimeout` + nulling the ref), and no cleanup step schedules one. -/
def timerPendingAfter (steps : List CleanupStep) (pending : Bool) : Bool :=
  steps.foldl
    (fun st step =>
      match step with
      | CleanupStep.cancelAnnounceTimer => false
      | _ => st)
    pending

/-! ## Concrete sample inputs -/

/-- A sample remote participant. -/
def demoUser2 : CollaborativeUser :=
  { id := "u2", name := "Bob", color := "#EF4444", online_at := "0" }

/-- A sample one-entry registry. -/
def demoUsers : List CollaborativeUser := [demoUser2]

/-- A sample `user_join` envelope for `u2`. -/
def demoJoin1 : MindMapAction :=
  { type := .user_join, userId := "u2", userName := "Bobby",
    userColor := "#10B981", timestamp := 5 }

/-- The same join re-sent with a later timestamp. -/
def demoJoin2 : MindMapAction :=
  { type := .user_join, userId := "u2", userName := "Bobby",
    userColor := "#10B981", timestamp := 9 }

/-- A sample envelope originating from the local user `u1`. -/
def demoSelfAction : MindMapAction :=
  { type := .cursor_move, position := some ⟨3, 4⟩, userId := "u1",
    userName := "Alice", userColor := "#3B82F6", timestamp := 7 }

/-- The same self-originated envelope as a raw wire payload. -/
def demoSelfRaw : RawPayload :=
  { type := some "cursor_move", userId := some "u1", userName := some "Alice",
    userColor := some "#3B82F6", timestamp := some 7 }

/-- A raw wire payload with every field missing except a foreign `userId`. -/
def demoSparseRaw : RawPayload :=
  { userId := some "u2" }

/-- A sample raw registry. -/
def demoRawUsers : List RawUser :=
  [{ id := some "u2", name := some "Bob", color := some "#EF4444", online_at := some "0" }]

/-- A sample `user_leave` envelope for `u2`. -/
def demoLeave : MindMapAction :=
  { type := .user_leave, userId := "u2", userName := "Bobby",
    userColor := "#10B981", timestamp := 11 }

/-- A sample partial action passed to `broadcastAction`. -/
def demoPartial : PartialAction :=
  { type := .cursor_move, position := some ⟨1, 2⟩ }

/-- The envelope `broadcastAction` builds from `demoPartial` for local user
`u1` at time 7. -/
def demoFullAction : MindMapAction :=
  { type := .cursor_move, position := some ⟨1, 2⟩, userId := "u1",
    userName := "Alice", userColor := "#3B82F6", timestamp := 7 }

/-- Sample hook props of one session on chat `c1`. -/
def demoProps1 : UseRealtimeCollaborationProps :=
  { chatId := "c1", userId := "u1", userName := "Alice" }

/-- Sample hook props of a second session on the same chat, different user. -/
def demoProps2 : UseRealtimeCollaborationProps :=
  { chatId := "c1", userId := "u2", userName := "Bob" }

/-- A sample connected state with an assigned (non-default) user color. -/
def demoStateConnected : CollabState :=
  { hasChannel := true, isConnected := true, collaborativeUsers := demoUsers,
    userColor := "#EF4444", shouldAnnounceJoin := true }

/-- The cleanup step sequence of a concrete teardown: pending timer,
connected, beacon available and not throwing. -/
def demoCleanup : List CleanupStep :=
  cleanupSteps true true true false "c1" "u1" "Alice" "#3B82F6" 7

/-! # Theorems -/

/-! ## Helper lemmas on the registry operations -/

/-- Entries surviving `filter (u.id ≠ x)` contribute nothing to the count of
entries with id `x`. -/
theorem countP_filter_ne_eq_zero (s : List CollaborativeUser) (x : String) :
    (s.filter (fun u => u.id ≠ x)).countP (fun u => u.id = x) = 0 := by
  rw [List.countP_eq_zero]
  intro u hu
  have := List.of_mem_filter hu
  simpa using this

/-- After a join upsert there is exactly one entry for the joining id. -/
theorem countId_upsertOnJoin_self (s : List CollaborativeUser) (a : MindMapAction) :
    countId a.userId (upsertOnJoin s a) = 1 := by
  unfold countId upsertOnJoin
  rw [List.countP_append, countP_filter_ne_eq_zero]
  simp [newUserOfAction]

/-- A join upsert does not increase the count of entries for any other id. -/
theorem countId_upsertOnJoin_other (s : List CollaborativeUser) (a : MindMapAction)
    (uid : String) (h : uid ≠ a.userId) :
    countId uid (upsertOnJoin s a) ≤ countId uid s := by
  unfold countId upsertOnJoin
  rw [List.countP_append]
  have h1 : ([newUserOfAction a].countP (fun u => u.id = uid)) = 0 := by
    simp [newUserOfAction, Ne.symm h]
  rw [h1, Nat.add_zero]
  exact (List.filter_sublist s).countP_le _

/-- The count of each id partitioned by equality with `x`. -/
theorem countId_add_filter_length (s : List CollaborativeUser) (x : String) :
    countId x s + (s.filter (fun u => u.id ≠ x)).length = s.length := by
  unfold countId
  simp only [ne_eq, decide_not]
  induction s with
  | nil => rfl
  | cons u t ih =>
    by_cases h : u.id = x <;>
      simp [List.countP_cons, List.filter_cons, h] <;> omega

/-- The entries of a join upsert with the joining id are exactly the single
fresh entry built from the event. -/
theorem filter_upsertOnJoin_self (s : List CollaborativeUser) (a : MindMapAction) :
    (upsertOnJoin s a).filter (fun u => u.id = a.userId) = [newUserOfAction a] := by
  unfold upsertOnJoin
  rw [List.filter_append]
  have h0 : (s.filter (fun u => u.id ≠ a.userId)).filter (fun u => u.id = a.userId) = [] := by
    rw [List.filter_eq_nil_iff]
    intro u hu
    have := List.of_mem_filter hu
    simpa using this
  simp [h0, newUserOfAction]

/-- Re-applying a join for the same id leaves the registry size unchanged. -/
theorem upsertOnJoin_length_idem (s : List CollaborativeUser) (a₁ a₂ : MindMapAction)
    (h : a₂.userId = a₁.userId) :
    (upsertOnJoin (upsertOnJoin s a₁) a₂).length = (upsertOnJoin s a₁).length := by
  unfold upsertOnJoin
  simp [List.filter_append, h, newUserOfAction]

/-- A join upsert preserves the at-most-one-entry-per-userId invariant. -/
theorem atMostOne_upsertOnJoin (s : List CollaborativeUser) (a : MindMapAction)
    (hinv : AtMostOnePerId s) : AtMostOnePerId (upsertOnJoin s a) := by
  intro uid
  by_cases h : uid = a.userId
  · subst h
    exact (countId_upsertOnJoin_self s a).le
  · exact (countId_upsertOnJoin_other s a uid h).trans (hinv uid)

/-- A leave removal preserves the at-most-one-entry-per-userId invariant. -/
theorem atMostOne_removeOnLeave (s : List CollaborativeUser) (x : String)
    (hinv : AtMostOnePerId s) : AtMostOnePerId (removeOnLeave s x) := by
  intro uid
  refine le_trans ?_ (hinv uid)
  unfold countId removeOnLeave
  exact (List.filter_sublist s).countP_le _

/-- C1: applying the `user_join` handler's upsert yields a set with exactly
one entry for the joining `userId`, carrying the event's fields (name, color,
`online_at` from the event's timestamp); applying the same join (same
`userId`, any timestamps) twice yields the same set size as applying it once;
and the at-most-one-entry-per-userId invariant is preserved by both registry
operations (join upsert and leave removal). -/
theorem user_join_upsert_idempotent_and_invariant
    (s : List CollaborativeUser) (a₁ a₂ : MindMapAction) (uid : String)
    (hsame : a₂.userId = a₁.userId) (hinv : AtMostOnePerId s) :
    countId a₁.userId (upsertOnJoin s a₁) = 1 ∧
    (upsertOnJoin s a₁).filter (fun u => u.id = a₁.userId) = [newUserOfAction a₁] ∧
    (upsertOnJoin (upsertOnJoin s a₁) a₂).length = (upsertOnJoin s a₁).length ∧
    AtMostOnePerId (upsertOnJoin s a₁) ∧
    AtMostOnePerId (removeOnLeave s uid) :=
  ⟨countId_upsertOnJoin_self s a₁,
   filter_upsertOnJoin_self s a₁,
   upsertOnJoin_length_idem s a₁ a₂ hsame,
   atMostOne_upsertOnJoin s a₁ hinv,
   atMostOne_removeOnLeave s uid hinv⟩

/-- C1 witness: the join idempotence and invariant theorem applied to a
concrete registry and a concrete repeated join. -/
theorem user_join_upsert_idempotent_and_invariant_check :
    countId demoJoin1.userId (upsertOnJoin demoUsers demoJoin1) = 1 ∧
    (upsertOnJoin demoUsers demoJoin1).filter (fun u => u.id = demoJoin1.userId) =
      [newUserOfAction demoJoin1] ∧
    (upsertOnJoin (upsertOnJoin demoUsers demoJoin1) demoJoin2).length =
      (upsertOnJoin demoUsers demoJoin1).length ∧
    AtMostOnePerId (upsertOnJoin demoUsers demoJoin1) ∧
    AtMostOnePerId (removeOnLeave demoUsers "u3") :=
  user_join_upsert_idempotent_and_invariant demoUsers demoJoin1 demoJoin2 "u3" rfl
    (fun _ => List.countP_le_length _)

/-- C2: every inbound envelope whose `userId` equals the local `userId` has
no observable effect in any of the three handlers: `onAction` is not invoked,
the registry is unchanged and `onPresenceChange` is not invoked — both on the
raw wire semantics and on the typed layer. -/
theorem self_echo_suppression
    (localUserId : String) (rusers : List RawUser) (tusers : List CollaborativeUser)
    (r : RawPayload) (a : MindMapAction)
    (hr : r.userId = some localUserId) (ha : a.userId = localUserId) :
    handleMindMapActionEventRaw localUserId (some r) = .ok none ∧
    handleUserJoinEventRaw localUserId rusers (some r) = .ok (rusers, none) ∧
    handleUserLeaveEventRaw localUserId rusers (some r) = .ok (rusers, none) ∧
    handleMindMapActionEvent localUserId a = none ∧
    handleUserJoinEvent localUserId tusers a = (tusers, none) ∧
    handleUserLeaveEvent localUserId tusers a = (tusers, none) := by
  refine ⟨?_, ?_, ?_, ?_, ?_, ?_⟩ <;>
    simp [handleMindMapActionEventRaw, handleUserJoinEventRaw, handleUserLeaveEventRaw,
          handleMindMapActionEvent, handleUserJoinEvent, handleUserLeaveEvent, hr, ha]

/-- C2 witness: self-echo suppression at a concrete self-originated envelope
(raw and typed) against concrete registries. -/
theorem self_echo_suppression_check :
    handleMindMapActionEventRaw "u1" (some demoSelfRaw) = .ok none ∧
    handleUserJoinEventRaw "u1" demoRawUsers (some demoSelfRaw) = .ok (demoRawUsers, none) ∧
    handleUserLeaveEventRaw "u1" demoRawUsers (some demoSelfRaw) = .ok (demoRawUsers, none) ∧
    handleMindMapActionEvent "u1" demoSelfAction = none ∧
    handleUserJoinEvent "u1" demoUsers demoSelfAction = (demoUsers, none) ∧
    handleUserLeaveEvent "u1" demoUsers demoSelfAction = (demoUsers, none) :=
  self_echo_suppression "u1" demoRawUsers demoUsers demoSelfRaw demoSelfAction rfl rfl

/-- C7: the `user_leave` removal applied to an id absent from the registry
returns the registry unchanged and (raw layer) never throws; applied to a
present id (under the at-most-one invariant) it removes exactly that entry —
the size drops by one, no entry with that id remains, every other entry
survives — and the handler triggers the presence-changed notification with
the updated set. -/
theorem user_leave_tolerance_and_removal
    (users : List CollaborativeUser) (rusers : List RawUser)
    (localUserId absentId : String) (u : CollaborativeUser) (a : MindMapAction)
    (r : RawPayload)
    (habsent : ∀ v ∈ users, v.id ≠ absentId)
    (hmem : u ∈ users) (hinv : AtMostOnePerId users)
    (ha : a.userId ≠ localUserId) :
    removeOnLeave users absentId = users ∧
    (handleUserLeaveEventRaw localUserId rusers (some r)).isOk = true ∧
    (removeOnLeave users u.id).length + 1 = users.length ∧
    countId u.id (removeOnLeave users u.id) = 0 ∧
    (∀ v ∈ users, v.id ≠ u.id → v ∈ removeOnLeave users u.id) ∧
    handleUserLeaveEvent localUserId users a =
      (removeOnLeave users a.userId, some (removeOnLeave users a.userId)) := by
  refine ⟨?_, ?_, ?_, ?_, ?_, ?_⟩
  · exact List.filter_eq_self.mpr (fun v hv => by simpa using habsent v hv)
  · by_cases h : r.userId = some localUserId <;>
      simp [handleUserLeaveEventRaw, h, Except.isOk, Except.toBool]
  · have h1 : countId u.id users = 1 := by
      have hle := hinv u.id
      have hpos : 0 < countId u.id users :=
        List.countP_pos_iff.mpr ⟨u, hmem, by simp⟩
      omega
    have h2 := countId_add_filter_length users u.id
    unfold removeOnLeave
    omega
  · exact countP_filter_ne_eq_zero users u.id
  · intro v hv hvne
    exact List.mem_filter.mpr ⟨hv, by simpa using hvne⟩
  · simp [handleUserLeaveEvent, ha]

/-- C7 witness: leave tolerance and removal at a concrete registry — an
absent id (`u3`) is a no-op, a present id (`u2`) is removed with
notification. -/
theorem user_leave_tolerance_and_removal_check :
    removeOnLeave demoUsers "u3" = demoUsers ∧
    (handleUserLeaveEventRaw "u1" demoRawUsers (some demoSparseRaw)).isOk = true ∧
    (removeOnLeave demoUsers demoUser2.id).length + 1 = demoUsers.length ∧
    countId demoUser2.id (removeOnLeave demoUsers demoUser2.id) = 0 ∧
    (∀ v ∈ demoUsers, v.id ≠ demoUser2.id → v ∈ removeOnLeave demoUsers demoUser2.id) ∧
    handleUserLeaveEvent "u1" demoUsers demoLeave =
      (removeOnLeave demoUsers demoLeave.userId, some (removeOnLeave demoUsers demoLeave.userId)) :=
  user_leave_tolerance_and_removal demoUsers demoRawUsers "u1" "u3" demoUser2 demoLeave
    demoSparseRaw (by decide) (by decide) (fun _ => List.countP_le_length _) (by decide)

/-- C5: `broadcastAction` silently returns nothing when the channel is
absent or not yet connected; when connected, the envelope it sends is the
input action extended with the local origin `userId`, `userName`,
`userColor` and the current timestamp, the input's own fields unchanged. -/
theorem broadcast_drop_or_fill
    (hasChannel connected : Bool) (uid uname ucolor : String) (now : Int)
    (action : PartialAction) :
    ((hasChannel = false ∨ connected = false) →
      broadcastAction hasChannel connected uid uname ucolor now action = none) ∧
    (hasChannel = true → connected = true →
      ∃ e, broadcastAction hasChannel connected uid uname ucolor now action = some e ∧
        e.userId = uid ∧ e.userName = uname ∧ e.userColor = ucolor ∧
        e.timestamp = now ∧ e.type = action.type ∧ e.nodeId = action.nodeId ∧
        e.position = action.position ∧ e.data = action.data) := by
  constructor
  · rintro (h | h) <;> simp [broadcastAction, h]
  · rintro h1 h2
    subst h1
    subst h2
    exact ⟨_, rfl, rfl, rfl, rfl, rfl, rfl, rfl, rfl, rfl⟩

/-- C5 witness: a concrete dropped broadcast (not connected) and a concrete
filled envelope (connected). -/
theorem broadcast_drop_or_fill_check :
    broadcastAction false true "u1" "Alice" "#3B82F6" 7 demoPartial = none ∧
    broadcastAction true true "u1" "Alice" "#3B82F6" 7 demoPartial = some demoFullAction :=
  ⟨(broadcast_drop_or_fill false true "u1" "Alice" "#3B82F6" 7 demoPartial).1 (Or.inl rfl),
   rfl⟩

/-- C9: the channel topic is a deterministic pure function of `chatId`
alone — `"chat-collaboration:" ++ chatId` — so two sessions on the same
`chatId` (any users) compute the same topic. -/
theorem channel_topic_deterministic
    (p q : UseRealtimeCollaborationProps) (h : p.chatId = q.chatId) :
    sessionTopic p = "chat-collaboration:" ++ p.chatId ∧
    sessionTopic p = sessionTopic q := by
  constructor
  · rfl
  · simp [sessionTopic, roomName, h]

/-- C9 witness: two concrete sessions on chat `c1` with different users
compute the identical topic. -/
theorem channel_topic_deterministic_check :
    sessionTopic demoProps1 = "chat-collaboration:" ++ demoProps1.chatId ∧
    sessionTopic demoProps1 = sessionTopic demoProps2 :=
  channel_topic_deterministic demoProps1 demoProps2 rfl

/-- C10: `updateSelectedNode` with a null `nodeId` requests no broadcast
(deselection is never propagated), and any `node_select` envelope it does
request comes from a non-null call and carries that `nodeId`. -/
theorem deselect_not_broadcast :
    updateSelectedNode none = none ∧
    ∀ n a, updateSelectedNode (some n) = some a →
      a.type = ActionType.node_select ∧ a.nodeId = some n := by
  constructor
  · rfl
  · intro n a h
    by_cases hn : n = ""
    · simp [updateSelectedNode, jsTruthyString, hn] at h
    · simp [updateSelectedNode, jsTruthyString, hn] at h
      subst h
      exact ⟨rfl, rfl⟩

/-- C4 counterexample: teardown does not clear the stored user color — from
a connected state with assigned color `#EF4444`, the post-cleanup color is
still `#EF4444` (neither the initial default nor empty). -/
theorem cleanup_color_not_cleared :
    (cleanupState demoStateConnected).userColor = "#EF4444" ∧
    (cleanupState demoStateConnected).userColor ≠ initialUserColor ∧
    (cleanupState demoStateConnected).userColor ≠ "" := by
  refine ⟨rfl, ?_, ?_⟩ <;> decide

/-- C4 (amended): after teardown the participant set is empty, the connected
flag is false, the channel and the pending join announcement are cleared —
but the stored user color is left unchanged, not cleared. -/
theorem cleanup_resets_state_except_color (s : CollabState) :
    (cleanupState s).collaborativeUsers = [] ∧
    (cleanupState s).isConnected = false ∧
    (cleanupState s).hasChannel = false ∧
    (cleanupState s).shouldAnnounceJoin = false ∧
    (cleanupState s).userColor = s.userColor :=
  ⟨rfl, rfl, rfl, rfl, rfl⟩

/-- The head of a filtered list is the first element satisfying the
predicate. -/
theorem head?_filter_eq_find? {α : Type} (p : α → Bool) (l : List α) :
    (l.filter p).head? = l.find? p := by
  induction l with
  | nil => rfl
  | cons a t ih => by_cases h : p a <;> simp [List.filter_cons, List.find?, h, ih]

/-- Indexing the palette at any in-range position lands in the palette. -/
theorem mem_USER_COLORS_getD (i : Nat) (h : i < USER_COLORS.length) :
    USER_COLORS.getD i "" ∈ USER_COLORS := by
  rw [List.getD_eq_getElem?_getD, List.getElem?_eq_getElem h]
  exact List.getElem_mem h

/-- C6: `assignColor` returns the first palette color not used by any current
participant whenever such a color exists (and that color is then distinct
from every color in use); when every palette color is in use it returns the
palette entry at the random index, and every palette entry is reachable by
some random seed; in every case the result is a member of the fixed 8-color
palette (and the computation is a total function). -/
theorem assignColor_first_free_or_random (users : List CollaborativeUser) (rand : Nat) :
    assignColor users rand ∈ USER_COLORS ∧
    ((∃ c ∈ USER_COLORS, ∀ u ∈ users, u.color ≠ c) →
      (some (assignColor users rand) =
        USER_COLORS.find? (fun c => !users.any (fun u => u.color == c)) ∧
       ∀ u ∈ users, u.color ≠ assignColor users rand)) ∧
    ((∀ c ∈ USER_COLORS, ∃ u ∈ users, u.color = c) →
      (assignColor users rand = USER_COLORS.getD (rand % USER_COLORS.length) "" ∧
       ∀ i, i < USER_COLORS.length → ∃ r, assignColor users r = USER_COLORS.getD i "")) := by
  have hne : ∀ c ∈ USER_COLORS, c ≠ "" := by decide
  have hform : ∀ r : Nat, assignColor users r =
      jsOrString (USER_COLORS.find? (fun c => !users.any (fun u => u.color == c)))
        (USER_COLORS.getD (r % USER_COLORS.length) "") := by
    intro r
    unfold assignColor
    simp only [head?_filter_eq_find?]
  cases hfind : USER_COLORS.find? (fun c => !users.any (fun u => u.color == c)) with
  | some c₀ =>
    have hp := List.find?_some hfind
    have hmem : c₀ ∈ USER_COLORS := List.mem_of_find?_eq_some hfind
    have hres : assignColor users rand = c₀ := by
      rw [hform rand, hfind]
      simp [jsOrString, hne c₀ hmem]
    have hunused : ∀ u ∈ users, u.color ≠ c₀ := by
      intro u hu
      simp only [Bool.not_eq_true'] at hp
      rw [List.any_eq_false] at hp
      simpa using hp u hu
    refine ⟨hres ▸ hmem, fun _ => ⟨?_, hres ▸ hunused⟩, fun hall => ?_⟩
    · rw [hres]
    · exfalso
      obtain ⟨u, hu, hcu⟩ := hall c₀ hmem
      exact hunused u hu hcu
  | none =>
    have hres : ∀ r : Nat,
        assignColor users r = USER_COLORS.getD (r % USER_COLORS.length) "" := by
      intro r
      rw [hform r, hfind]
      rfl
    have hnofree : ∀ c ∈ USER_COLORS, ¬ (!users.any (fun u => u.color == c)) = true := by
      rw [← List.find?_eq_none]
      exact hfind
    refine ⟨?_, fun hfree => ?_, fun _ => ⟨hres rand, ?_⟩⟩
    · rw [hres rand]
      exact mem_USER_COLORS_getD _ (Nat.mod_lt _ (by decide))
    · exfalso
      obtain ⟨c, hc, hcu⟩ := hfree
      apply hnofree c hc
      simp only [Bool.not_eq_true', List.any_eq_false]
      intro u hu
      simpa using hcu u hu
    · intro i hi
      refine ⟨i, ?_⟩
      rw [hres i, Nat.mod_eq_of_lt hi]

/-- C3: in the teardown step sequence, a pending join-announcement timer is
cancelled first and none is pending once teardown ran; while connected the
`user_leave` envelope is attempted exactly once via the beacon path whenever
the beacon is available, the channel broadcast is used exactly when the
beacon is unavailable or throws synchronously, the attempt carries the
`user_leave` envelope built from the local identity; no leave is attempted
when not connected; and all delivery attempts precede the channel
destruction, which precedes the final state reset. -/
theorem teardown_leave_once_before_unsubscribe
    (pendingTimer connected beaconAvailable beaconThrows : Bool)
    (chatId userId userName userColor : String) (now : Int) :
    ∀ steps : List CleanupStep,
    steps = cleanupSteps pendingTimer connected beaconAvailable beaconThrows
      chatId userId userName userColor now →
    (pendingTimer = true → steps.head? = some CleanupStep.cancelAnnounceTimer) ∧
    timerPendingAfter steps pendingTimer = false ∧
    (connected = true →
      steps.countP CleanupStep.isBeaconSend = (if beaconAvailable then 1 else 0) ∧
      steps.countP CleanupStep.isChannelSendLeave =
        (if beaconAvailable && !beaconThrows then 0 else 1) ∧
      (beaconAvailable = true →
        CleanupStep.beaconSend chatId (leaveAction userId userName userColor now) ∈ steps) ∧
      (beaconAvailable = false →
        CleanupStep.channelSendLeave (leaveAction userId userName userColor now) ∈ steps)) ∧
    (connected = false → steps.countP CleanupStep.isLeaveAttempt = 0) ∧
    steps.getLast? = some CleanupStep.resetLocalState ∧
    steps.dropLast.getLast? = some CleanupStep.removeChannel ∧
    steps.dropLast.dropLast.countP CleanupStep.isLeaveAttempt =
      steps.countP CleanupStep.isLeaveAttempt ∧
    steps.dropLast.dropLast.countP (fun s => s = CleanupStep.removeChannel) = 0 := by
  rintro steps rfl
  cases pendingTimer <;> cases connected <;> cases beaconAvailable <;> cases beaconThrows <;>
    simp [cleanupSteps, timerPendingAfter, CleanupStep.isBeaconSend,
      CleanupStep.isChannelSendLeave, CleanupStep.isLeaveAttempt,
      List.countP_cons, List.dropLast, List.getLast?]

/-- C3 witness: the teardown ordering theorem at a concrete teardown
(pending timer, connected, beacon available and not throwing). -/
theorem teardown_leave_once_before_unsubscribe_check :
    (true = true → demoCleanup.head? = some CleanupStep.cancelAnnounceTimer) ∧
    timerPendingAfter demoCleanup true = false ∧
    (true = true →
      demoCleanup.countP CleanupStep.isBeaconSend = (if true then 1 else 0) ∧
      demoCleanup.countP CleanupStep.isChannelSendLeave = (if true && !false then 0 else 1) ∧
      (true = true →
        CleanupStep.beaconSend "c1" (leaveAction "u1" "Alice" "#3B82F6" 7) ∈ demoCleanup) ∧
      (true = false →
        CleanupStep.channelSendLeave (leaveAction "u1" "Alice" "#3B82F6" 7) ∈ demoCleanup)) ∧
    (true = false → demoCleanup.countP CleanupStep.isLeaveAttempt = 0) ∧
    demoCleanup.getLast? = some CleanupStep.resetLocalState ∧
    demoCleanup.dropLast.getLast? = some CleanupStep.removeChannel ∧
    demoCleanup.dropLast.dropLast.countP CleanupStep.isLeaveAttempt =
      demoCleanup.countP CleanupStep.isLeaveAttempt ∧
    demoCleanup.dropLast.dropLast.countP (fun s => s = CleanupStep.removeChannel) = 0 :=
  teardown_leave_once_before_unsubscribe true true true false "c1" "u1" "Alice" "#3B82F6" 7
    demoCleanup rfl

/-- C8 counterexample: the handlers do not treat payloads with missing
required fields as no-ops — a payload carrying only a foreign `userId`
(every other field absent) makes the `mind_map_action` handler invoke
`onAction` with the malformed envelope, an absent payload makes it raise a
`TypeError`, and the `user_join` handler raises a `RangeError` on that
sparse payload (its `timestamp` is absent). -/
theorem malformed_payload_counterexample :
    handleMindMapActionEventRaw "u1" (some demoSparseRaw) = .ok (some demoSparseRaw) ∧
    handleMindMapActionEventRaw "u1" none = .error .typeError ∧
    handleUserJoinEventRaw "u1" [] (some demoSparseRaw) = .error .rangeError :=
  ⟨rfl, rfl, rfl⟩

/-- C8 (amended): the receive handlers apply no validation.  An absent/null
payload raises a `TypeError` in each handler.  An object payload whose
`userId` differs from the local one is processed as-is: the
`mind_map_action` handler hands the payload, however incomplete, to
`onAction`; the `user_join` handler raises a `RangeError` when `timestamp`
is absent and otherwise upserts an entry built from the possibly-absent
fields (notifying presence change); the `user_leave` handler never raises on
object payloads. -/
theorem malformed_payload_no_validation
    (localUserId : String) (rusers : List RawUser) (r : RawPayload) (t : Int) :
    handleMindMapActionEventRaw localUserId none = .error .typeError ∧
    handleUserJoinEventRaw localUserId rusers none = .error .typeError ∧
    handleUserLeaveEventRaw localUserId rusers none = .error .typeError ∧
    (r.userId ≠ some localUserId →
      handleMindMapActionEventRaw localUserId (some r) = .ok (some r)) ∧
    (r.userId ≠ some localUserId → r.timestamp = none →
      handleUserJoinEventRaw localUserId rusers (some r) = .error .rangeError) ∧
    (r.userId ≠ some localUserId → r.timestamp = some t →
      handleUserJoinEventRaw localUserId rusers (some r) =
        .ok (rusers.filter (fun u => u.id ≠ r.userId) ++
              [{ id := r.userId, name := r.userName, color := r.userColor,
                 online_at := some (dateToISOString t) }],
             some (rusers.filter (fun u => u.id ≠ r.userId) ++
              [{ id := r.userId, name := r.userName, color := r.userColor,
                 online_at := some (dateToISOString t) }]))) ∧
    (handleUserLeaveEventRaw localUserId rusers (some r)).isOk = true := by
  refine ⟨rfl, rfl, rfl, ?_, ?_, ?_, ?_⟩
  · intro h
    simp [handleMindMapActionEventRaw, h]
  · intro h ht
    simp [handleUserJoinEventRaw, h, ht, dateToISOStringRaw]
  · intro h ht
    simp [handleUserJoinEventRaw, h, ht, dateToISOStringRaw]
  · by_cases h : r.userId = some localUserId <;>
      simp [handleUserLeaveEventRaw, h, Except.isOk, Except.toBool]

end Zermind.RealtimeCollab
